import Mathlib

/-!
Shallow embedding of the JWT issuance / verification engine of the
django-oauth2-demo repository.

The embedding covers:
* `generate_token` (src/api/token_generator.py): claim construction and signing;
* `decode_jwt_token` (src/api/jwt_auth.py): issuer-keyed verification, with the
  claim-validation semantics of the PyJWT 2.x `jwt.decode` call it delegates to
  (algorithm allow-list check, signature check, then `iat` and `exp` validation,
  in that order, each validated only when the claim is present);
* `JwtToken.allow_scopes`, `JWTAuthentication.authenticate`,
  `authenticate_credentials` and `_get_jwt_value` (src/api/jwt_auth.py).

Cryptography is abstracted: a signature is modelled as the signing key itself,
and `pubOf` is the (injective) map from a private key to its public key, so
signature verification is the test `pubOf sigKey = publicKey`.
Integer unix timestamps are modelled as `Int`.
-/

/-- A JSON claim value that is expected to be an integer timestamp: either an
integer, or a value on which Python `int(...)` raises `ValueError`. -/
inductive TimeClaim where
  | int (n : Int)
  | nonInt
deriving DecidableEq

/-- The token payload (the claim names used by the repository). A field that is
`none` is absent from the payload dictionary. -/
structure Payload where
  iss : Option String
  exp : Option TimeClaim
  iat : Option TimeClaim
  jti : Option String
  client_id : Option String
  aud : Option String
  scope : Option String
  sub : Option String
  username : Option String
  email : Option String
deriving DecidableEq

/-- The payload with no claims at all. -/
def emptyPayload : Payload :=
  ⟨none, none, none, none, none, none, none, none, none, none⟩

/-- A Django user account as used by `authenticate_credentials` and
`generate_token` (the account store of the spec). -/
structure Account where
  id : Int
  username : String
  email : String
  is_active : Bool
  is_authenticated : Bool
deriving DecidableEq

/-- The OAuth2 request object consumed by `generate_token`: optional client
identifier, scope list, optional user. -/
structure OAuthRequest where
  client_id : Option String
  scopes : List String
  user : Option Account
deriving DecidableEq

/-- The Django settings consulted by the engine.  `attrs` models
`getattr(settings, name, None)` for the per-issuer key settings
(`JWT_PRIVATE_KEY_*` / `JWT_PUBLIC_KEY_*`). -/
structure Settings where
  jwtIssuer : String
  attrs : String → Option String
  jwsAlgorithms : List String
  encAlgorithm : String
  expireSeconds : Int
  authDisabled : Bool
  scheme : String

/-- A signed compact token: header algorithm, payload, and the abstract
signature (the private key that produced it). -/
structure Token where
  alg : String
  payload : Payload
  sigKey : String
deriving DecidableEq

/-- Abstract asymmetric key pairing: the public key matching private key `k`. -/
def pubOf (k : String) : String := "public:" ++ k

/-- Python `str.upper()` (ASCII case mapping suffices for the issuer names). -/
def pyUpper (s : String) : String := String.mk (s.data.map Char.toUpper)

/-- Python `str.replace('-', '_')`: hyphens (and only hyphens) become
underscores. -/
def dashToUnderscore (s : String) : String :=
  String.mk (s.data.map (fun c => if c = '-' then '_' else c))

/-- The issuer-name normalization both key lookups perform:
`issuer.upper().replace('-', '_')`. -/
def normalizeIssuer (issuer : String) : String := dashToUnderscore (pyUpper issuer)

/-- The verification-key setting name built by `decode_jwt_token`. -/
def public_key_name (issuer : String) : String :=
  "JWT_PUBLIC_KEY_" ++ normalizeIssuer issuer

/-- The signing-key setting name built by `generate_token`. -/
def private_key_name (issuer : String) : String :=
  "JWT_PRIVATE_KEY_" ++ normalizeIssuer issuer

/-- Python truthiness of an optional string (`None` and `''` are falsy). -/
def truthyOpt : Option String → Bool
  | none => false
  | some s => if s = "" then false else true

/-- The guard `user and hasattr(user, 'is_authenticated') and
user.is_authenticated` of `generate_token`: the user reference that counts as
an authenticated user, if any. -/
def authedUser : Option Account → Option Account
  | none => none
  | some u => if u.is_authenticated then some u else none

/-- The payload dictionary built by `generate_token`
(src/api/token_generator.py lines 24-66), given the current time, the fresh
`jti` and the request. -/
def build_payload (st : Settings) (now : Int) (jti : String)
    (req : Option OAuthRequest) : Payload :=
  let base : Payload :=
    { emptyPayload with
        iss := some st.jwtIssuer
        exp := some (TimeClaim.int (now + st.expireSeconds))
        iat := some (TimeClaim.int now)
        jti := some jti }
  match req with
  | none => base
  | some r =>
    let p1 :=
      if truthyOpt r.client_id then
        { base with client_id := r.client_id, aud := r.client_id }
      else base
    let p2 :=
      if r.scopes.isEmpty then p1
      else { p1 with scope := some (String.intercalate " " r.scopes) }
    match authedUser r.user with
    | some u =>
      { p2 with
          sub := some (toString u.id)
          username := some u.username
          email := if u.email = "" then none else some u.email }
    | none => if truthyOpt r.client_id then { p2 with sub := r.client_id } else p2

/-- `generate_token` (src/api/token_generator.py): builds the payload, resolves
the signing key `JWT_PRIVATE_KEY_<normalized issuer>` and signs; a missing or
empty key raises `ValueError`. -/
def generate_token (st : Settings) (now : Int) (jti : String)
    (req : Option OAuthRequest) : Except String Token :=
  match st.attrs (private_key_name st.jwtIssuer) with
  | none => Except.error ("Missing JWT private key setting: " ++ private_key_name st.jwtIssuer)
  | some k =>
    if k = "" then
      Except.error ("Missing JWT private key setting: " ++ private_key_name st.jwtIssuer)
    else Except.ok ⟨st.encAlgorithm, build_payload st now jti req, k⟩

/-- The PyJWT exceptions that can escape the `jwt.decode` call of
`decode_jwt_token`, plus the `InvalidTokenError` the repository itself raises
for a missing public-key setting.  In PyJWT, `invalidSignature` and `expNonInt`
are `DecodeError` subclasses; all of them (and `expiredSignature`) are
`InvalidTokenError` subclasses. -/
inductive JwtError where
  | expiredSignature
  | invalidSignature
  | expNonInt
  | invalidIssuedAt
  | immatureSignature
  | invalidAlgorithm
  | missingKey (settingName : String)
deriving DecidableEq

/-- The `str(e)` message of each error. -/
def jwtErrMsg : JwtError → String
  | JwtError.expiredSignature => "Signature has expired"
  | JwtError.invalidSignature => "Signature verification failed"
  | JwtError.expNonInt => "Expiration Time claim (exp) must be an integer."
  | JwtError.invalidIssuedAt => "Issued At claim (iat) must be an integer."
  | JwtError.immatureSignature => "The token is not yet valid (iat)"
  | JwtError.invalidAlgorithm => "The specified alg value is not allowed"
  | JwtError.missingKey n => "Missing public key setting: " ++ n

/-- Whether the error is (a subclass of) PyJWT `DecodeError`. -/
def isDecodeError : JwtError → Bool
  | JwtError.invalidSignature => true
  | JwtError.expNonInt => true
  | _ => false

/-- PyJWT `_validate_iat` (validated only when the claim is present): a
non-integer raises `InvalidIssuedAtError`; an integer in the future raises
`ImmatureSignatureError`. -/
def validate_iat (now : Int) : Option TimeClaim → Except JwtError Unit
  | none => Except.ok ()
  | some TimeClaim.nonInt => Except.error JwtError.invalidIssuedAt
  | some (TimeClaim.int i) =>
    if now < i then Except.error JwtError.immatureSignature else Except.ok ()

/-- PyJWT `_validate_exp` (validated only when the claim is present): a
non-integer raises `DecodeError`; `exp <= now` raises
`ExpiredSignatureError`. -/
def validate_exp (now : Int) : Option TimeClaim → Except JwtError Unit
  | none => Except.ok ()
  | some TimeClaim.nonInt => Except.error JwtError.expNonInt
  | some (TimeClaim.int e) =>
    if e ≤ now then Except.error JwtError.expiredSignature else Except.ok ()

/-- PyJWT `jwt.decode(token, key, algorithms=..., options={verify_signature,
verify_exp, verify_iat})`: header-algorithm allow-list check, signature check,
then claim validation (`iat` before `exp`, as in PyJWT `_validate_claims`). -/
def jwt_decode_verified (key : String) (algorithms : List String) (now : Int)
    (tok : Token) : Except JwtError Payload :=
  if tok.alg ∈ algorithms then
    if pubOf tok.sigKey = key then
      match validate_iat now tok.payload.iat with
      | Except.error e => Except.error e
      | Except.ok _ =>
        match validate_exp now tok.payload.exp with
        | Except.error e => Except.error e
        | Except.ok _ => Except.ok tok.payload
    else Except.error JwtError.invalidSignature
  else Except.error JwtError.invalidAlgorithm

/-- `decode_jwt_token` (src/api/jwt_auth.py lines 14-47): read `iss` from the
unverified payload (defaulting to `settings.JWT_ISSUER`), resolve
`JWT_PUBLIC_KEY_<normalized issuer>` (a missing or empty setting raises
`InvalidTokenError`), then decode with signature / exp / iat verification. -/
def decode_jwt_token (st : Settings) (now : Int) (tok : Token) :
    Except JwtError Payload :=
  match st.attrs (public_key_name (tok.payload.iss.getD st.jwtIssuer)) with
  | none =>
    Except.error (JwtError.missingKey (public_key_name (tok.payload.iss.getD st.jwtIssuer)))
  | some pk =>
    if pk = "" then
      Except.error (JwtError.missingKey (public_key_name (tok.payload.iss.getD st.jwtIssuer)))
    else jwt_decode_verified pk st.jwsAlgorithms now tok

/-- Python `str.split()` with no separator: split on runs of whitespace,
dropping empty pieces (helper on the character list). -/
def pySplitAux (word : List Char) : List Char → List String
  | [] => if word.isEmpty then [] else [String.mk word.reverse]
  | c :: cs =>
    if c.isWhitespace then
      if word.isEmpty then pySplitAux [] cs
      else String.mk word.reverse :: pySplitAux [] cs
    else pySplitAux (c :: word) cs

/-- Python `str.split()` with no separator. -/
def pySplit (s : String) : List String := pySplitAux [] s.data

/-- The scope set of a token: `set(token_scope.split()) if token_scope else
set()` with `token_scope = self.get('scope', '')` (as a list of the member
strings). -/
def scope_set (p : Payload) : List String :=
  let token_scope := p.scope.getD ""
  if token_scope = "" then [] else pySplit token_scope

/-- `JwtToken.allow_scopes` (src/api/jwt_auth.py lines 76-89): true when the
required iterable is empty, otherwise the subset test
`set(scopes).issubset(provided_scopes)`. -/
def allow_scopes (p : Payload) (scopes : List String) : Bool :=
  if scopes.isEmpty then true
  else scopes.all (fun s => decide (s ∈ scope_set p))

/-- The principal produced by `authenticate_credentials`: `AnonymousUser()` or
a concrete account. -/
inductive Principal where
  | anonymous
  | user (a : Account)
deriving DecidableEq

/-- `User.objects.get(id=user_id, username=username)` over the account store:
the stored account matching both fields, if any. -/
def find_account (accounts : List Account) (uid uname : String) :
    Option Account :=
  accounts.find? (fun a => decide (toString a.id = uid) && decide (a.username = uname))

/-- `JWTAuthentication.authenticate_credentials` (src/api/jwt_auth.py lines
123-149).  `Except.error` is an `AuthenticationFailed` with the given detail
message. -/
def authenticate_credentials (st : Settings) (accounts : List Account)
    (p : Payload) : Except String Principal :=
  if st.authDisabled then Except.ok Principal.anonymous
  else if !truthyOpt p.sub || !truthyOpt p.username then Except.ok Principal.anonymous
  else
    match find_account accounts (p.sub.getD "") (p.username.getD "") with
    | none => Except.error "User not found"
    | some a =>
      if !a.is_active then Except.error "User account is disabled"
      else Except.ok (Principal.user a)

/-- The outcome of `JWTAuthentication.authenticate`: `skip` is `return None`,
`failed` is a raised `AuthenticationFailed` with its detail message, `ok` is
the `(user, JwtToken(payload))` pair. -/
inductive AuthOutcome where
  | skip
  | failed (msg : String)
  | ok (p : Principal) (payload : Payload)
deriving DecidableEq

/-- The part of `JWTAuthentication.authenticate` (src/api/jwt_auth.py lines
111-121) that runs once a JWT value has been extracted: decode inside a
try/except mapping `ExpiredSignatureError`, `DecodeError` and
`InvalidTokenError` to their `AuthenticationFailed` messages, then resolve the
principal. -/
def token_auth (st : Settings) (accounts : List Account) (now : Int)
    (tok : Token) : AuthOutcome :=
  match decode_jwt_token st now tok with
  | Except.error e =>
    if e = JwtError.expiredSignature then AuthOutcome.failed "Token has expired"
    else if isDecodeError e then AuthOutcome.failed "Error decoding token"
    else AuthOutcome.failed ("Invalid token: " ++ jwtErrMsg e)
  | Except.ok payload =>
    match authenticate_credentials st accounts payload with
    | Except.error m => AuthOutcome.failed m
    | Except.ok pr => AuthOutcome.ok pr payload

/-- Result of `_get_jwt_value`: no usable header (`return None`), a raised
`AuthenticationFailed`, or the extracted JWT string. -/
inductive HeaderParse where
  | noHeader
  | malformed (msg : String)
  | jwt (value : String)
deriving DecidableEq

/-- Message raised when the scheme is present with no credentials. -/
def noCredsMsg : String :=
  "Invalid Authorization header. No credentials provided."

/-- Message raised when more than one token follows the scheme. -/
def spacesMsg : String :=
  "Invalid Authorization header. Credentials string should not contain spaces."

/-- `JWTAuthentication._get_jwt_value` (src/api/jwt_auth.py lines 151-173):
split the Authorization header on whitespace; an empty split or a first word
different from the configured scheme means no JWT (`None`); with the scheme
matched, exactly one following word is the JWT, zero or more than one raise
`AuthenticationFailed`. -/
def get_jwt_value (scheme hdr : String) : HeaderParse :=
  match pySplit hdr with
  | [] => HeaderParse.noHeader
  | w :: rest =>
    if w = scheme then
      match rest with
      | [] => HeaderParse.malformed noCredsMsg
      | [t] => HeaderParse.jwt t
      | _ => HeaderParse.malformed spacesMsg
    else HeaderParse.noHeader

/-- The value `_get_jwt_value` produces from the token list that follows a
matched scheme word: zero following tokens or more than one raise the
malformed-header failures, exactly one is the JWT. -/
def restShape : List String → HeaderParse
  | [] => HeaderParse.malformed noCredsMsg
  | [t] => HeaderParse.jwt t
  | _ => HeaderParse.malformed spacesMsg

/-- `JWTAuthentication.authenticate` (src/api/jwt_auth.py lines 102-121) over a
request whose Authorization header is `header` (absent headers behave as the
empty string, as `get_authorization_header` returns `b''`).  `parseJwt` is the
compact-serialization parser of the JWT library; a string it cannot parse
raises `DecodeError`. -/
def authenticate (st : Settings) (accounts : List Account) (now : Int)
    (parseJwt : String → Option Token) (header : Option String) : AuthOutcome :=
  match get_jwt_value st.scheme (header.getD "") with
  | HeaderParse.noHeader => AuthOutcome.skip
  | HeaderParse.malformed m => AuthOutcome.failed m
  | HeaderParse.jwt s =>
    match parseJwt s with
    | none => AuthOutcome.failed "Error decoding token"
    | some tok => token_auth st accounts now tok

/-- Spec-side expectation (round-trip law): the `client_id` supplied by the
issuance context, when one is present. -/
def spec_ctx_client (req : Option OAuthRequest) : Option String :=
  match req with
  | none => none
  | some r => if truthyOpt r.client_id then r.client_id else none

/-- Spec-side expectation (round-trip law): the scope string supplied by the
issuance context — the order-preserving space-separated join of its scope
list, when the list is non-empty. -/
def spec_ctx_scope (req : Option OAuthRequest) : Option String :=
  match req with
  | none => none
  | some r =>
    if r.scopes.isEmpty then none
    else some (String.intercalate " " r.scopes)

/-- Spec-side expectation (round-trip law, §4.3): the subject supplied by the
issuance context — the authenticated user's id in string form, else the client
identifier (client-credentials convention), else absent. -/
def spec_ctx_sub (req : Option OAuthRequest) : Option String :=
  match req with
  | none => none
  | some r =>
    match authedUser r.user with
    | some u => some (toString u.id)
    | none => if truthyOpt r.client_id then r.client_id else none

/-! ### Concrete fixtures for counterexamples and witnesses -/

/-- Key settings of a deployment whose issuer is "demo-app": a signing key and
the matching verification key, under the normalized setting names. -/
def fixAttrs : String → Option String := fun n =>
  if n = "JWT_PRIVATE_KEY_DEMO_APP" then some "k1"
  else if n = "JWT_PUBLIC_KEY_DEMO_APP" then some (pubOf "k1") else none

/-- A concrete deployment configuration. -/
def fixSettings : Settings := ⟨"demo-app", fixAttrs, ["RS256"], "RS256", 3600, false, "Bearer"⟩

/-- A token claiming an issuer with no configured verification key. -/
def tokNoKey : Token := ⟨"RS256", { emptyPayload with iss := some "unknown" }, "kX"⟩

/-- A validly signed token whose `iat` lies in the future (an attacker-shaped
token-validity failure). -/
def tokBadIat : Token :=
  ⟨"RS256",
   { emptyPayload with iss := some "demo-app", iat := some (TimeClaim.int 100),
                       exp := some (TimeClaim.int 200) }, "k1"⟩

/-- A validly signed token whose `exp` is past and whose `iat` is not an
integer. -/
def tokBadIatExpired : Token :=
  ⟨"RS256",
   { emptyPayload with iss := some "demo-app", iat := some TimeClaim.nonInt,
                       exp := some (TimeClaim.int (-5)) }, "k1"⟩

/-- A validly signed token whose `exp` is past and whose `iat` is fine. -/
def tokExpOnly : Token :=
  ⟨"RS256",
   { emptyPayload with iss := some "demo-app", iat := some (TimeClaim.int (-10)),
                       exp := some (TimeClaim.int (-5)) }, "k1"⟩

/-- A validly signed, unexpired token with no `iat` claim at all. -/
def tokNoIat : Token :=
  ⟨"RS256",
   { emptyPayload with iss := some "demo-app", exp := some (TimeClaim.int 100) }, "k1"⟩

/-- A concrete authenticated user for the round-trip witness. -/
def fixAcct : Account := ⟨42, "alice", "alice@example.com", true, true⟩

/-- A concrete issuance context: client id, scopes and an authenticated user. -/
def fixReq : Option OAuthRequest := some ⟨some "cid1", ["read", "write"], some fixAcct⟩

/-- A context that supplies only a client identifier (client-credentials
grant). -/
def fixReqClientOnly : OAuthRequest := ⟨some "cid1", [], none⟩

/-! ### Helper lemmas -/

theorem strData_append (a b : String) : (a ++ b).data = a.data ++ b.data := by
  cases a
  cases b
  rfl

theorem pubOf_ne_empty (s : String) : pubOf s ≠ "" := by
  intro h
  have h1 := congrArg String.data h
  unfold pubOf at h1
  rw [strData_append] at h1
  simp at h1

theorem invalid_token_data_get8 (m : String) :
    ("Invalid token: " ++ m).data.get? 8 = some 't' := by
  rw [strData_append]
  rfl

theorem build_payload_iss (st : Settings) (now : Int) (jti : String)
    (req : Option OAuthRequest) :
    (build_payload st now jti req).iss = some st.jwtIssuer := by
  unfold build_payload
  cases req with
  | none => rfl
  | some r =>
    cases authedUser r.user <;> (repeat' split) <;> rfl

theorem build_payload_iat (st : Settings) (now : Int) (jti : String)
    (req : Option OAuthRequest) :
    (build_payload st now jti req).iat = some (TimeClaim.int now) := by
  unfold build_payload
  cases req with
  | none => rfl
  | some r =>
    cases authedUser r.user <;> (repeat' split) <;> rfl

theorem build_payload_exp (st : Settings) (now : Int) (jti : String)
    (req : Option OAuthRequest) :
    (build_payload st now jti req).exp = some (TimeClaim.int (now + st.expireSeconds)) := by
  unfold build_payload
  cases req with
  | none => rfl
  | some r =>
    cases authedUser r.user <;> (repeat' split) <;> rfl

theorem build_payload_scope (st : Settings) (now : Int) (jti : String)
    (req : Option OAuthRequest) :
    (build_payload st now jti req).scope = spec_ctx_scope req := by
  unfold build_payload spec_ctx_scope
  cases req with
  | none => rfl
  | some r =>
    cases authedUser r.user <;> (repeat' split) <;> rfl

theorem build_payload_client (st : Settings) (now : Int) (jti : String)
    (req : Option OAuthRequest) :
    (build_payload st now jti req).client_id = spec_ctx_client req := by
  unfold build_payload spec_ctx_client
  cases req with
  | none => rfl
  | some r =>
    cases authedUser r.user <;> (repeat' split) <;> rfl

theorem build_payload_sub (st : Settings) (now : Int) (jti : String)
    (req : Option OAuthRequest) :
    (build_payload st now jti req).sub = spec_ctx_sub req := by
  unfold build_payload spec_ctx_sub
  cases req with
  | none => rfl
  | some r =>
    cases h : authedUser r.user <;> (repeat' split) <;> rfl

theorem pySplit_empty : pySplit "" = [] := rfl

/-! ### Claims -/

/-- C2: `allow_scopes` returns true iff the required collection is empty or
every required scope is a member of the whitespace-split of the payload's
`scope` field (the empty set when the field is absent or empty).  Since the
right-hand side only depends on membership, the check is insensitive to the
order of the required scopes, to duplicate scope tokens, and to surrounding
whitespace in the `scope` string. -/
theorem c2_allow_scopes_iff (p : Payload) (scopes : List String) :
    allow_scopes p scopes = true ↔
      (scopes = [] ∨ ∀ s ∈ scopes, s ∈ pySplit (p.scope.getD "")) := by
  unfold allow_scopes scope_set
  by_cases h2 : p.scope.getD "" = ""
  · rw [h2, pySplit_empty]
    cases scopes with
    | nil => simp
    | cons a as =>
      simp
      exact ⟨a, fun h => absurd rfl h⟩
  · cases scopes with
    | nil => simp
    | cons a as => simp [h2, List.all_eq_true]

/-- C3 counterexample: the issuer identifiers "my.issuer" and "my-issuer"
differ only in punctuation style, yet the signing-key and verification-key
lookups map them to different key-setting names — the normalization replaces
only hyphens, not every non-alphanumeric character, so the claimed
punctuation-insensitive resolution fails. -/
theorem c3_counterexample :
    public_key_name "my.issuer" ≠ public_key_name "my-issuer" ∧
    private_key_name "my.issuer" ≠ private_key_name "my-issuer" := by decide

/-- C3 (amended): both lookups normalize the issuer identifier by uppercasing
it and replacing each hyphen (only) with an underscore before building the key
name; identifiers with the same uppercasing resolve to the same keys, and a
hyphen-vs-underscore difference also collapses, but any other punctuation is
preserved. -/
theorem c3_normalization (s t : String) (h : pyUpper s = pyUpper t) :
    public_key_name s = "JWT_PUBLIC_KEY_" ++ dashToUnderscore (pyUpper s) ∧
    private_key_name s = "JWT_PRIVATE_KEY_" ++ dashToUnderscore (pyUpper s) ∧
    public_key_name s = public_key_name t ∧
    private_key_name s = private_key_name t ∧
    public_key_name "demo-app" = public_key_name "DEMO_APP" := by
  refine ⟨rfl, rfl, ?_, ?_, by decide⟩
  · unfold public_key_name normalizeIssuer
    rw [h]
  · unfold private_key_name normalizeIssuer
    rw [h]

theorem c3_normalization_witness :
    public_key_name "Demo-App" = public_key_name "dEMO-aPP" :=
  (c3_normalization "Demo-App" "dEMO-aPP" (by decide)).2.2.1

/-! ### Characterizations of the decode pipeline -/

theorem decode_eval (st : Settings) (now : Int) (tok : Token) (pk : String)
    (hA : st.attrs (public_key_name (tok.payload.iss.getD st.jwtIssuer)) = some pk)
    (hpk : pk ≠ "") :
    decode_jwt_token st now tok = jwt_decode_verified pk st.jwsAlgorithms now tok := by
  unfold decode_jwt_token
  rw [hA]
  simp [hpk]

theorem jdv_eval (key : String) (algs : List String) (now : Int) (tok : Token)
    (h1 : tok.alg ∈ algs) (h2 : pubOf tok.sigKey = key) :
    jwt_decode_verified key algs now tok =
      (match validate_iat now tok.payload.iat with
       | Except.error e => Except.error e
       | Except.ok _ =>
         match validate_exp now tok.payload.exp with
         | Except.error e => Except.error e
         | Except.ok _ => Except.ok tok.payload) := by
  unfold jwt_decode_verified
  rw [if_pos h1, if_pos h2]

theorem jwt_decode_verified_ok (key : String) (algs : List String) (now : Int)
    (tok : Token) (p : Payload)
    (h : jwt_decode_verified key algs now tok = Except.ok p) :
    tok.alg ∈ algs ∧ pubOf tok.sigKey = key ∧
    validate_iat now tok.payload.iat = Except.ok () ∧
    validate_exp now tok.payload.exp = Except.ok () ∧ p = tok.payload := by
  unfold jwt_decode_verified at h
  by_cases h1 : tok.alg ∈ algs
  · rw [if_pos h1] at h
    by_cases h2 : pubOf tok.sigKey = key
    · rw [if_pos h2] at h
      cases hi : validate_iat now tok.payload.iat with
      | error e => rw [hi] at h; cases h
      | ok u =>
        rw [hi] at h
        cases he : validate_exp now tok.payload.exp with
        | error e => rw [he] at h; cases h
        | ok u2 =>
          rw [he] at h
          injection h with h3
          exact ⟨h1, h2, by cases u; rfl, by cases u2; rfl, h3.symm⟩
    · rw [if_neg h2] at h
      cases h
  · rw [if_neg h1] at h
    cases h

theorem decode_ok_inv (st : Settings) (now : Int) (tok : Token) (p : Payload)
    (h : decode_jwt_token st now tok = Except.ok p) :
    ∃ pk, st.attrs (public_key_name (tok.payload.iss.getD st.jwtIssuer)) = some pk ∧
      pk ≠ "" ∧ jwt_decode_verified pk st.jwsAlgorithms now tok = Except.ok p := by
  unfold decode_jwt_token at h
  cases hA : st.attrs (public_key_name (tok.payload.iss.getD st.jwtIssuer)) with
  | none => rw [hA] at h; cases h
  | some pk =>
    rw [hA] at h
    simp only [] at h
    by_cases hpk : pk = ""
    · rw [if_pos hpk] at h
      cases h
    · rw [if_neg hpk] at h
      exact ⟨pk, rfl, hpk, h⟩

/-! ### Message-distinctness helpers -/

theorem expired_ne_invalid (m : String) :
    "Token has expired" ≠ "Invalid token: " ++ m := by
  intro h
  have h8 := invalid_token_data_get8 m
  rw [← h] at h8
  exact absurd h8 (by decide)

theorem noCreds_ne_invalid (m : String) : noCredsMsg ≠ "Invalid token: " ++ m := by
  intro h
  have h8 := invalid_token_data_get8 m
  rw [← h] at h8
  exact absurd h8 (by decide)

theorem spaces_ne_invalid (m : String) : spacesMsg ≠ "Invalid token: " ++ m := by
  intro h
  have h8 := invalid_token_data_get8 m
  rw [← h] at h8
  exact absurd h8 (by decide)

/-- C4 counterexample: with no verification key configured for the claimed
issuer "unknown", the authentication boundary converts the configuration
failure into the very same `AuthenticationFailed` "Invalid token: ..." outcome
that an attacker-supplied bad token (here: a validly signed token with a
future `iat`) receives — it is not surfaced distinctly from token-validity
errors. -/
theorem c4_counterexample :
    token_auth fixSettings [] 0 tokNoKey =
      AuthOutcome.failed "Invalid token: Missing public key setting: JWT_PUBLIC_KEY_UNKNOWN" ∧
    token_auth fixSettings [] 0 tokBadIat =
      AuthOutcome.failed "Invalid token: The token is not yet valid (iat)" := ⟨rfl, rfl⟩

/-- C4 (amended): when the normalized issuer has no configured verification
key (the setting is missing or empty), `decode_jwt_token` fails with the
repository's `InvalidTokenError` naming the missing setting, and the
authentication boundary catches it and converts it into the same
`AuthenticationFailed` "Invalid token: ..." outcome used for token-validity
errors — distinguishable only by its message text, not surfaced as a distinct
configuration error. -/
theorem c4_missing_key (st : Settings) (accounts : List Account) (now : Int) (tok : Token)
    (h : st.attrs (public_key_name (tok.payload.iss.getD st.jwtIssuer)) = none ∨
         st.attrs (public_key_name (tok.payload.iss.getD st.jwtIssuer)) = some "") :
    decode_jwt_token st now tok =
      Except.error (JwtError.missingKey (public_key_name (tok.payload.iss.getD st.jwtIssuer))) ∧
    token_auth st accounts now tok =
      AuthOutcome.failed ("Invalid token: " ++
        ("Missing public key setting: " ++ public_key_name (tok.payload.iss.getD st.jwtIssuer))) := by
  have hdec : decode_jwt_token st now tok =
      Except.error (JwtError.missingKey (public_key_name (tok.payload.iss.getD st.jwtIssuer))) := by
    unfold decode_jwt_token
    rcases h with h | h <;> simp [h]
  refine ⟨hdec, ?_⟩
  unfold token_auth
  rw [hdec]
  simp [isDecodeError, jwtErrMsg]

theorem c4_missing_key_witness :
    decode_jwt_token fixSettings 0 tokNoKey =
      Except.error (JwtError.missingKey "JWT_PUBLIC_KEY_UNKNOWN") ∧
    token_auth fixSettings [] 0 tokNoKey =
      AuthOutcome.failed "Invalid token: Missing public key setting: JWT_PUBLIC_KEY_UNKNOWN" := by
  have h := c4_missing_key fixSettings [] 0 tokNoKey (Or.inl rfl)
  exact ⟨h.1, h.2⟩

/-- C5 counterexample: `tokBadIatExpired` has `exp = -5`, in the past at
verification time 0, and a valid signature under the configured key; yet
verification fails with the issued-at error (the decode call validates `iat`
before `exp`), and the boundary reports the generic invalid-token message
rather than the token-expired one. -/
theorem c5_counterexample :
    pubOf tokBadIatExpired.sigKey = pubOf "k1" ∧
    tokBadIatExpired.payload.exp = some (TimeClaim.int (-5)) ∧
    decode_jwt_token fixSettings 0 tokBadIatExpired = Except.error JwtError.invalidIssuedAt ∧
    token_auth fixSettings [] 0 tokBadIatExpired =
      AuthOutcome.failed "Invalid token: Issued At claim (iat) must be an integer." :=
  ⟨rfl, rfl, rfl, rfl⟩

/-- C5 (amended): a token whose `exp` claim is an integer not in the future is
rejected by verification on every path, regardless of signature validity; when
additionally the verification key is configured and matches the signature, the
header algorithm is allowed, and the `iat` claim passes its check, the failure
is the Expired kind and the boundary reports it as "Token has expired",
distinct from every other failure message the boundary can produce. -/
theorem c5_expired (st : Settings) (accounts : List Account) (now : Int) (tok : Token) (e : Int)
    (hexp : tok.payload.exp = some (TimeClaim.int e)) (hpast : e ≤ now) :
    (∀ p, decode_jwt_token st now tok ≠ Except.ok p) ∧
    (∀ pk, st.attrs (public_key_name (tok.payload.iss.getD st.jwtIssuer)) = some pk → pk ≠ "" →
      tok.alg ∈ st.jwsAlgorithms → pubOf tok.sigKey = pk →
      validate_iat now tok.payload.iat = Except.ok () →
      decode_jwt_token st now tok = Except.error JwtError.expiredSignature ∧
      token_auth st accounts now tok = AuthOutcome.failed "Token has expired" ∧
      (∀ m, "Token has expired" ≠ "Invalid token: " ++ m) ∧
      "Token has expired" ≠ "Error decoding token" ∧
      "Token has expired" ≠ noCredsMsg ∧ "Token has expired" ≠ spacesMsg ∧
      "Token has expired" ≠ "User not found" ∧
      "Token has expired" ≠ "User account is disabled") := by
  have hexpval : validate_exp now tok.payload.exp = Except.error JwtError.expiredSignature := by
    rw [hexp]
    unfold validate_exp
    simp only []
    rw [if_pos hpast]
  constructor
  · intro p hok
    obtain ⟨pk, hA, hpk, hjdv⟩ := decode_ok_inv st now tok p hok
    obtain ⟨_, _, _, hev, _⟩ := jwt_decode_verified_ok pk st.jwsAlgorithms now tok p hjdv
    rw [hexpval] at hev
    cases hev
  · intro pk hA hpk h1 h2 hiat
    have hdec : decode_jwt_token st now tok = Except.error JwtError.expiredSignature := by
      rw [decode_eval st now tok pk hA hpk, jdv_eval pk st.jwsAlgorithms now tok h1 h2,
          hiat, hexpval]
    refine ⟨hdec, ?_, expired_ne_invalid, by decide, by decide, by decide, by decide, by decide⟩
    unfold token_auth
    rw [hdec]
    simp

theorem c5_expired_witness :
    decode_jwt_token fixSettings 0 tokExpOnly = Except.error JwtError.expiredSignature ∧
    token_auth fixSettings [] 0 tokExpOnly = AuthOutcome.failed "Token has expired" := by
  have h := (c5_expired fixSettings [] 0 tokExpOnly (-5) rfl (by decide)).2
    (pubOf "k1") rfl (pubOf_ne_empty "k1") (by decide) rfl rfl
  exact ⟨h.1, h.2.1⟩

/-- C6 counterexample: `tokNoIat` has NO `iat` claim, a valid signature under
the configured key and an unexpired `exp`, and verification ACCEPTS it — the
decode call validates `iat` only when the claim is present, so a missing `iat`
is not rejected. -/
theorem c6_counterexample :
    tokNoIat.payload.iat = none ∧
    decode_jwt_token fixSettings 0 tokNoIat = Except.ok tokNoIat.payload := ⟨rfl, rfl⟩

/-- C6 (amended): under a configured matching key and an allowed algorithm, a
missing `iat` is not rejected (the token is accepted whenever the expiry check
passes); an `iat` that is present but not an integer, or that lies in the
future, is rejected, and the boundary reports that failure with an
"Invalid token: ..." message — distinct from the "Error decoding token"
outcome produced for bad signatures, i.e. not classified with BadSignature. -/
theorem c6_issued_at (st : Settings) (accounts : List Account) (now : Int) (tok : Token) (pk : String)
    (hA : st.attrs (public_key_name (tok.payload.iss.getD st.jwtIssuer)) = some pk)
    (hpk : pk ≠ "") (h1 : tok.alg ∈ st.jwsAlgorithms) (h2 : pubOf tok.sigKey = pk) :
    (tok.payload.iat = some TimeClaim.nonInt →
      decode_jwt_token st now tok = Except.error JwtError.invalidIssuedAt ∧
      token_auth st accounts now tok =
        AuthOutcome.failed "Invalid token: Issued At claim (iat) must be an integer." ∧
      AuthOutcome.failed "Invalid token: Issued At claim (iat) must be an integer." ≠
        AuthOutcome.failed "Error decoding token") ∧
    (∀ i : Int, tok.payload.iat = some (TimeClaim.int i) → now < i →
      decode_jwt_token st now tok = Except.error JwtError.immatureSignature ∧
      token_auth st accounts now tok =
        AuthOutcome.failed "Invalid token: The token is not yet valid (iat)") ∧
    (tok.payload.iat = none → ∀ e : Int, tok.payload.exp = some (TimeClaim.int e) → now < e →
      decode_jwt_token st now tok = Except.ok tok.payload) := by
  have heval := decode_eval st now tok pk hA hpk
  rw [jdv_eval pk st.jwsAlgorithms now tok h1 h2] at heval
  refine ⟨?_, ?_, ?_⟩
  · intro hi
    rw [hi] at heval
    have hdec : decode_jwt_token st now tok = Except.error JwtError.invalidIssuedAt := heval
    refine ⟨hdec, ?_, by decide⟩
    unfold token_auth
    rw [hdec]
    simp [isDecodeError, jwtErrMsg]
  · intro i hi hfut
    rw [hi] at heval
    have hiv : validate_iat now (some (TimeClaim.int i)) = Except.error JwtError.immatureSignature := by
      unfold validate_iat
      simp only []
      rw [if_pos hfut]
    rw [hiv] at heval
    simp only [] at heval
    refine ⟨heval, ?_⟩
    unfold token_auth
    rw [heval]
    simp [isDecodeError, jwtErrMsg]
  · intro hi e he hfut
    rw [hi, he] at heval
    have hev : validate_exp now (some (TimeClaim.int e)) = Except.ok () := by
      unfold validate_exp
      simp only []
      rw [if_neg (not_le.mpr hfut)]
    rw [hev] at heval
    simp only [validate_iat] at heval
    exact heval

theorem c6_issued_at_witness :
    decode_jwt_token fixSettings 0 tokNoIat = Except.ok tokNoIat.payload :=
  (c6_issued_at fixSettings [] 0 tokNoIat (pubOf "k1") rfl (pubOf_ne_empty "k1")
    (by decide) rfl).2.2 rfl 100 rfl (by decide)

/-- C1: round-trip law.  For every issuance context (optional client id,
scope list, optional authenticated user), over a deployment whose signing and
verification keys for the configured issuer are present and paired, whose
signing algorithm is in the verification allow-list, and with a positive
remaining lifetime at verification time, verifying the token produced by
`generate_token` succeeds and the decoded payload's `scope`, `client_id` and
`sub` equal exactly the values supplied by the context (`spec_ctx_scope`,
`spec_ctx_client`, `spec_ctx_sub` state the spec-side expectations). -/
theorem c1_round_trip (st : Settings) (now t : Int) (jti : String)
    (req : Option OAuthRequest) (priv : String)
    (hpriv : st.attrs (private_key_name st.jwtIssuer) = some priv) (hne : priv ≠ "")
    (hpub : st.attrs (public_key_name st.jwtIssuer) = some (pubOf priv))
    (halg : st.encAlgorithm ∈ st.jwsAlgorithms)
    (hiat : now ≤ t) (hexp : t < now + st.expireSeconds) :
    ∃ tok p, generate_token st now jti req = Except.ok tok ∧
      decode_jwt_token st t tok = Except.ok p ∧
      p.scope = spec_ctx_scope req ∧
      p.client_id = spec_ctx_client req ∧
      p.sub = spec_ctx_sub req := by
  refine ⟨⟨st.encAlgorithm, build_payload st now jti req, priv⟩,
          build_payload st now jti req, ?_, ?_,
          build_payload_scope st now jti req,
          build_payload_client st now jti req,
          build_payload_sub st now jti req⟩
  · unfold generate_token
    rw [hpriv]
    simp [hne]
  · have hA : st.attrs (public_key_name
        (((⟨st.encAlgorithm, build_payload st now jti req, priv⟩ : Token)).payload.iss.getD
          st.jwtIssuer)) = some (pubOf priv) := by
      rw [build_payload_iss st now jti req]
      exact hpub
    have heval := decode_eval st t ⟨st.encAlgorithm, build_payload st now jti req, priv⟩
      (pubOf priv) hA (pubOf_ne_empty priv)
    rw [jdv_eval (pubOf priv) st.jwsAlgorithms t
      ⟨st.encAlgorithm, build_payload st now jti req, priv⟩ halg rfl] at heval
    rw [heval]
    simp only [build_payload_iat st now jti req, build_payload_exp st now jti req]
    have hiv : validate_iat t (some (TimeClaim.int now)) = Except.ok () := by
      unfold validate_iat
      simp only []
      rw [if_neg (not_lt.mpr hiat)]
    have hev : validate_exp t (some (TimeClaim.int (now + st.expireSeconds))) = Except.ok () := by
      unfold validate_exp
      simp only []
      rw [if_neg (not_le.mpr hexp)]
    rw [hiv, hev]

theorem c1_round_trip_witness :
    ∃ tok p, generate_token fixSettings 0 "jti0" fixReq = Except.ok tok ∧
      decode_jwt_token fixSettings 5 tok = Except.ok p ∧
      p.scope = spec_ctx_scope fixReq ∧
      p.client_id = spec_ctx_client fixReq ∧
      p.sub = spec_ctx_sub fixReq :=
  c1_round_trip fixSettings 0 5 "jti0" fixReq "k1" rfl (by decide) rfl
    (by decide) (by decide) (by decide)

/-! ### Message classification of the boundary -/

theorem authenticate_credentials_error_msgs (st : Settings) (accounts : List Account)
    (p : Payload) (m : String)
    (h : authenticate_credentials st accounts p = Except.error m) :
    m = "User not found" ∨ m = "User account is disabled" := by
  unfold authenticate_credentials at h
  split at h
  · cases h
  · split at h
    · cases h
    · split at h
      · injection h with h2
        exact Or.inl h2.symm
      · split at h
        · injection h with h2
          exact Or.inr h2.symm
        · cases h

theorem token_auth_failed_msgs (st : Settings) (accounts : List Account) (now : Int)
    (tok : Token) (m : String)
    (h : token_auth st accounts now tok = AuthOutcome.failed m) :
    m = "Token has expired" ∨ m = "Error decoding token" ∨
    (∃ e, m = "Invalid token: " ++ jwtErrMsg e) ∨
    m = "User not found" ∨ m = "User account is disabled" := by
  unfold token_auth at h
  cases hd : decode_jwt_token st now tok with
  | error e =>
    rw [hd] at h
    simp only [] at h
    split at h
    · injection h with h2
      exact Or.inl h2.symm
    · split at h
      · injection h with h2
        exact Or.inr (Or.inl h2.symm)
      · injection h with h2
        exact Or.inr (Or.inr (Or.inl ⟨e, h2.symm⟩))
  | ok p =>
    rw [hd] at h
    simp only [] at h
    cases hc : authenticate_credentials st accounts p with
    | error m2 =>
      rw [hc] at h
      simp only [] at h
      injection h with h2
      rcases authenticate_credentials_error_msgs st accounts p m2 hc with h3 | h3
      · exact Or.inr (Or.inr (Or.inr (Or.inl (h2.symm.trans h3))))
      · exact Or.inr (Or.inr (Or.inr (Or.inr (h2.symm.trans h3))))
    | ok pr =>
      rw [hc] at h
      simp only [] at h
      cases h

theorem token_auth_no_header_msgs (st : Settings) (accounts : List Account) (now : Int)
    (tok : Token) :
    token_auth st accounts now tok ≠ AuthOutcome.failed noCredsMsg ∧
    token_auth st accounts now tok ≠ AuthOutcome.failed spacesMsg := by
  constructor
  · intro h
    rcases token_auth_failed_msgs st accounts now tok noCredsMsg h with h1 | h1 | ⟨e, h1⟩ | h1 | h1
    · exact absurd h1 (by decide)
    · exact absurd h1 (by decide)
    · exact noCreds_ne_invalid (jwtErrMsg e) h1
    · exact absurd h1 (by decide)
    · exact absurd h1 (by decide)
  · intro h
    rcases token_auth_failed_msgs st accounts now tok spacesMsg h with h1 | h1 | ⟨e, h1⟩ | h1 | h1
    · exact absurd h1 (by decide)
    · exact absurd h1 (by decide)
    · exact spaces_ne_invalid (jwtErrMsg e) h1
    · exact absurd h1 (by decide)
    · exact absurd h1 (by decide)

/-- C7: with the Authorization header's first whitespace-token equal to the
configured scheme, `_get_jwt_value` raises a malformed-header failure exactly
when zero tokens or more than one token follow the scheme; with exactly one
following token, that token is extracted as the candidate JWT; and the two
malformed-header messages can never be produced by the token-content
verification path, so the failure is distinct from token-content errors. -/
theorem c7_header_shape (scheme hdr : String) (rest : List String)
    (hsplit : pySplit hdr = scheme :: rest) :
    ((get_jwt_value scheme hdr = HeaderParse.malformed noCredsMsg ∨
      get_jwt_value scheme hdr = HeaderParse.malformed spacesMsg) ↔
      (rest = [] ∨ 2 ≤ rest.length)) ∧
    (∀ tk, rest = [tk] → get_jwt_value scheme hdr = HeaderParse.jwt tk) ∧
    (∀ st accounts now tok,
      token_auth st accounts now tok ≠ AuthOutcome.failed noCredsMsg ∧
      token_auth st accounts now tok ≠ AuthOutcome.failed spacesMsg) := by
  have hg : get_jwt_value scheme hdr = restShape rest := by
    unfold get_jwt_value restShape
    rw [hsplit]
    simp
  refine ⟨?_, ?_, fun st accounts now tok => token_auth_no_header_msgs st accounts now tok⟩
  · cases rest with
    | nil =>
      rw [hg]
      simp [restShape]
    | cons a as =>
      cases as with
      | nil =>
        rw [hg]
        simp [restShape]
      | cons b bs =>
        rw [hg]
        simp [restShape]
  · intro tk htk
    subst htk
    rw [hg]
    rfl

theorem c7_header_shape_witness :
    get_jwt_value "Bearer" "Bearer abc" = HeaderParse.jwt "abc" :=
  (c7_header_shape "Bearer" "Bearer abc" ["abc"] (by decide)).2.1 "abc" rfl

theorem build_payload_aud (st : Settings) (now : Int) (jti : String)
    (req : Option OAuthRequest) :
    (build_payload st now jti req).aud = spec_ctx_client req := by
  unfold build_payload spec_ctx_client
  cases req with
  | none => rfl
  | some r =>
    cases authedUser r.user <;> (repeat' split) <;> rfl

theorem build_payload_username_none (st : Settings) (now : Int) (jti : String)
    (r : OAuthRequest) (hu : authedUser r.user = none) :
    (build_payload st now jti (some r)).username = none := by
  unfold build_payload
  simp only []
  rw [hu]
  simp only []
  (repeat' split) <;> rfl

/-- C8: an issuance context that supplies a (non-empty) client identifier and
no authenticated user produces a payload whose `client_id`, `aud` and `sub`
all equal that client identifier and that has no `username` field; resolving
such a payload through `authenticate_credentials` yields the anonymous
principal — not a user and not an error — under any settings and any account
store, because `sub` and `username` are not both present. -/
theorem c8_client_credentials (st : Settings) (now : Int) (jti : String) (r : OAuthRequest)
    (c : String) (hc : r.client_id = some c) (hcne : c ≠ "")
    (hu : authedUser r.user = none) :
    (build_payload st now jti (some r)).client_id = some c ∧
    (build_payload st now jti (some r)).aud = some c ∧
    (build_payload st now jti (some r)).sub = some c ∧
    (build_payload st now jti (some r)).username = none ∧
    (∀ st2 accounts,
      authenticate_credentials st2 accounts (build_payload st now jti (some r)) =
        Except.ok Principal.anonymous) := by
  have htr : truthyOpt (some c) = true := by
    unfold truthyOpt
    simp [hcne]
  have h1 : (build_payload st now jti (some r)).client_id = some c := by
    rw [build_payload_client]
    unfold spec_ctx_client
    simp [hc, htr]
  have h2 : (build_payload st now jti (some r)).aud = some c := by
    rw [build_payload_aud]
    unfold spec_ctx_client
    simp [hc, htr]
  have h3 : (build_payload st now jti (some r)).sub = some c := by
    rw [build_payload_sub]
    unfold spec_ctx_sub
    simp only []
    rw [hu]
    simp [hc, htr]
  have h4 : (build_payload st now jti (some r)).username = none :=
    build_payload_username_none st now jti r hu
  refine ⟨h1, h2, h3, h4, ?_⟩
  intro st2 accounts
  unfold authenticate_credentials
  by_cases hd : st2.authDisabled
  · rw [if_pos hd]
  · rw [if_neg hd, h4]
    simp [truthyOpt]

theorem c8_client_credentials_witness :
    (build_payload fixSettings 0 "j1" (some fixReqClientOnly)).sub = some "cid1" ∧
    (build_payload fixSettings 0 "j1" (some fixReqClientOnly)).username = none ∧
    authenticate_credentials fixSettings []
      (build_payload fixSettings 0 "j1" (some fixReqClientOnly)) =
      Except.ok Principal.anonymous := by
  have h := c8_client_credentials fixSettings 0 "j1" fixReqClientOnly "cid1" rfl
    (by decide) rfl
  exact ⟨h.2.2.1, h.2.2.2.1, h.2.2.2.2 fixSettings []⟩

/-- C9: for a payload whose `sub` and `username` are both present and
non-empty (with the authentication-disabled override off), the adapter looks
the account up jointly by both fields: no jointly matching account — including
an id that resolves to an account with a different username — fails with
"User not found" (not an anonymous fallback), a jointly matched but
administratively disabled account fails with "User account is disabled", and a
matched active account authenticates as that user. -/
theorem c9_user_binding (st : Settings) (accounts : List Account) (p : Payload)
    (uid uname : String) (hdis : st.authDisabled = false)
    (hsub : p.sub = some uid) (huid : uid ≠ "")
    (husr : p.username = some uname) (hun : uname ≠ "") :
    (find_account accounts uid uname = none →
      authenticate_credentials st accounts p = Except.error "User not found") ∧
    (∀ a, find_account accounts uid uname = some a → a.is_active = false →
      authenticate_credentials st accounts p = Except.error "User account is disabled") ∧
    (∀ a, find_account accounts uid uname = some a → a.is_active = true →
      authenticate_credentials st accounts p = Except.ok (Principal.user a)) := by
  have hred : authenticate_credentials st accounts p =
      (match find_account accounts uid uname with
       | none => Except.error "User not found"
       | some a =>
         if !a.is_active then Except.error "User account is disabled"
         else Except.ok (Principal.user a)) := by
    unfold authenticate_credentials
    rw [hsub, husr]
    simp [hdis, truthyOpt, huid, hun]
  refine ⟨?_, ?_, ?_⟩
  · intro hf
    rw [hred, hf]
  · intro a hf ha
    rw [hred, hf]
    simp [ha]
  · intro a hf ha
    rw [hred, hf]
    simp [ha]

theorem c9_user_binding_witness :
    authenticate_credentials fixSettings [fixAcct]
      { emptyPayload with sub := some "42", username := some "bob" } =
      Except.error "User not found" := by
  have h := c9_user_binding fixSettings [fixAcct]
    { emptyPayload with sub := some "42", username := some "bob" }
    "42" "bob" rfl rfl (by decide) rfl (by decide)
  exact h.1 (by decide)

/-- C10: a request whose Authorization header is absent, empty (both split to
no words), or whose first word differs from the configured scheme makes
`authenticate` return None (declining), never a failure; and any non-declined
outcome can only arise once the first word equals the scheme. -/
theorem c10_decline (st : Settings) (accounts : List Account) (now : Int)
    (parseJwt : String → Option Token) (header : Option String) :
    (pySplit (header.getD "") = [] →
      authenticate st accounts now parseJwt header = AuthOutcome.skip) ∧
    (∀ w rest, pySplit (header.getD "") = w :: rest → w ≠ st.scheme →
      authenticate st accounts now parseJwt header = AuthOutcome.skip) ∧
    (authenticate st accounts now parseJwt header ≠ AuthOutcome.skip →
      ∃ rest, pySplit (header.getD "") = st.scheme :: rest) := by
  refine ⟨?_, ?_, ?_⟩
  · intro h
    unfold authenticate get_jwt_value
    rw [h]
  · intro w rest h hw
    unfold authenticate get_jwt_value
    rw [h]
    simp [hw]
  · intro h
    unfold authenticate get_jwt_value at h
    cases hs : pySplit (header.getD "") with
    | nil =>
      rw [hs] at h
      exact absurd rfl h
    | cons w rest =>
      rw [hs] at h
      by_cases hw : w = st.scheme
      · refine ⟨rest, ?_⟩
        rw [← hw]
      · simp only [if_neg hw] at h
        exact absurd rfl h

theorem c10_decline_witness :
    authenticate fixSettings [] 0 (fun _ => none) none = AuthOutcome.skip :=
  (c10_decline fixSettings [] 0 (fun _ => none) none).1 rfl

theorem c2_allow_scopes_iff_witness :
    allow_scopes { emptyPayload with scope := some " write  read " } ["read", "write"] = true ↔
      (["read", "write"] = [] ∨
        ∀ s ∈ ["read", "write"],
          s ∈ pySplit (({ emptyPayload with scope := some " write  read " } : Payload).scope.getD "")) :=
  c2_allow_scopes_iff { emptyPayload with scope := some " write  read " } ["read", "write"]
